import Mathlib

/-
Verification of the VitalWatch client core (src/frontend/src/App.js) against
its natural-language specification.

The embedding is shallow: the React component state becomes an explicit
record `AppState`, each handler becomes a pure function from the state (and
the outcome of its network request) to the next state, and the four poll
fetches of one tick are represented by a `TickOutcomes` record giving the
outcome of each fetch.  Network outcomes are modelled by `FetchOutcome`:
`ok d` is a 2xx response carrying data `d`, `auth401` is a 401 response
(`apiCall` then sets `isLoggedIn` false and resolves `null`), and `err` is a
rejected request (network error, or a non-2xx status other than 401, for
which `apiCall` throws).  The recurring 30-second interval installed by the
`useEffect` with dependency `[isLoggedIn]` is modelled by a `timerActive`
flag that, after each step, equals the current `isLoggedIn` value (the
effect re-runs whenever the flag changes: its cleanup clears the interval,
and the body re-arms it only while logged in).
-/

namespace VitalWatch

/-- A patient record, as produced by GET /patients and the add-patient form. -/
structure Patient where
  id : Nat
  name : String
  age : Nat
  gender : String
  room_number : String
  condition : String
  emergency_contact : String
deriving DecidableEq

/-- An alert, tied to one monitoring session via `session_id`. -/
structure Alert where
  id : Nat
  session_id : Nat
  severity : String
  message : String
  timestamp : Nat
  acknowledged : Bool
deriving DecidableEq

/-- A monitoring session; `status` is the lifecycle state string
("active" or "stopped") and `start_time` the start timestamp. -/
structure Session where
  id : Nat
  patient_id : Nat
  status : String
  start_time : Nat
deriving DecidableEq

/-- The server-computed dashboard snapshot. -/
structure DashboardStats where
  total_patients : Nat
  active_sessions : Nat
  total_users : Nat
  unacknowledged_alerts : Nat
  system_status : String
deriving DecidableEq

/-- The logged-in user, as held in the `user` state variable. -/
structure UserInfo where
  username : String
  role : String
deriving DecidableEq

/-- The login form state. -/
structure LoginForm where
  username : String
  password : String
deriving DecidableEq

/-- The component state of `VitalWatchApp`: one field per `useState` hook. -/
structure AppState where
  currentPage : String
  patients : List Patient
  dashboardStats : DashboardStats
  alerts : List Alert
  monitoringSessions : List Session
  loading : Bool
  showAddPatient : Bool
  user : UserInfo
  isLoggedIn : Bool
  loginForm : LoginForm
  loggingOut : Bool
deriving DecidableEq

/-- The initial `dashboardStats` value (the `useState` initializer). -/
def initialStats : DashboardStats :=
  { total_patients := 0
    active_sessions := 0
    total_users := 0
    unacknowledged_alerts := 0
    system_status := "operational" }

/-- The component state at mount: the `useState` initializers of App.js
lines 5-21.  Note `isLoggedIn` is initialized `true` (line 19). -/
def initialState : AppState :=
  { currentPage := "monitor"
    patients := []
    dashboardStats := initialStats
    alerts := []
    monitoringSessions := []
    loading := false
    showAddPatient := false
    user := { username := "Doctor", role := "doctor" }
    isLoggedIn := true
    loginForm := { username := "", password := "" }
    loggingOut := false }

/-- `getPatientStatus` (App.js lines 220-231): filter the alerts to those
whose `session_id` matches a session of this patient, then cascade on
severity. -/
def getPatientStatus (alerts : List Alert) (monitoringSessions : List Session)
    (patient : Patient) : String :=
  let recentAlerts := alerts.filter (fun alert =>
    monitoringSessions.any (fun session =>
      session.patient_id == patient.id && session.id == alert.session_id))
  if recentAlerts.any (fun alert => alert.severity == "critical") then "Critical"
  else if recentAlerts.any (fun alert => alert.severity == "high") then "High"
  else if recentAlerts.length > 0 then "Moderate"
  else "Stable"

/-- Modelled from the spec words of section 4.3 (for comparison with
`getPatientStatus`): collect every alert whose session belongs to a session
entry in `sessions` with patient id equal to `patient.id`, independent of
session status; then return Critical if any collected alert is critical,
else High if any is high, else Moderate if the collected set is non-empty,
else Stable. -/
def resolveStatus (patient : Patient) (sessions : List Session)
    (alerts : List Alert) : String :=
  let collected := alerts.filter (fun a =>
    decide (∃ s ∈ sessions, s.patient_id = patient.id ∧ s.id = a.session_id))
  if ∃ a ∈ collected, a.severity = "critical" then "Critical"
  else if ∃ a ∈ collected, a.severity = "high" then "High"
  else if collected ≠ [] then "Moderate"
  else "Stable"

/-- The outcome of one `apiCall`: `ok d` is a 2xx response whose JSON body is
`d`; `auth401` is a 401 response, for which `apiCall` sets `isLoggedIn` false
and resolves `null` (App.js lines 38-43); `err` is a rejected request — a
network error or a non-2xx status other than 401 — for which `apiCall`
throws (lines 44, 48-51). -/
inductive FetchOutcome (α : Type) where
  | ok (d : α)
  | auth401
  | err
deriving DecidableEq

/-- True when the outcome is a 2xx response. -/
def FetchOutcome.isOk : FetchOutcome α → Bool
  | .ok _ => true
  | _ => false

/-- True when the outcome is a 401 response. -/
def FetchOutcome.is401 : FetchOutcome α → Bool
  | .auth401 => true
  | _ => false

/-- True when the outcome is a rejected request. -/
def FetchOutcome.isErr : FetchOutcome α → Bool
  | .err => true
  | _ => false

/-- The outcomes of the four concurrent fetches of one poll tick
(`Promise.all` in `fetchData`, App.js lines 142-147). -/
structure TickOutcomes where
  patientsR : FetchOutcome (List Patient)
  statsR : FetchOutcome DashboardStats
  alertsR : FetchOutcome (List Alert)
  sessionsR : FetchOutcome (List Session)
deriving DecidableEq

/-- Some fetch of the tick returned 401; each such `apiCall` sets
`isLoggedIn` false as its own side effect before resolving `null`. -/
def anyAuth401 (o : TickOutcomes) : Bool :=
  o.patientsR.is401 || o.statsR.is401 || o.alertsR.is401 || o.sessionsR.is401

/-- Some fetch of the tick rejected; `Promise.all` then rejects and
`fetchData` lands in its catch block, so no registry is committed. -/
def anyErr (o : TickOutcomes) : Bool :=
  o.patientsR.isErr || o.statsR.isErr || o.alertsR.isErr || o.sessionsR.isErr

/-- `fetchData` (App.js lines 137-162), from the state at invocation and the
four fetch outcomes to the state after the tick settles.  The guard on line
138 returns early when logged out.  Each 401 flips `isLoggedIn` false inside
`apiCall`.  If any fetch rejects, `Promise.all` rejects and the catch block
runs: no registry is committed, and the `error.message.includes` test on
line 156 never fires because a 401 resolves `null` rather than throwing, so
no thrown message contains the digits 401.  Otherwise each non-null result
is committed to its own registry (lines 149-152); a `null` result (from a
401) leaves its registry unchanged.  `loading` ends false (the finally
block). -/
def fetchData (s : AppState) (o : TickOutcomes) : AppState :=
  if !s.isLoggedIn then s
  else
    let s1 := if anyAuth401 o then { s with isLoggedIn := false } else s
    if anyErr o then { s1 with loading := false }
    else
      { s1 with
        patients := (match o.patientsR with | .ok d => d | _ => s.patients)
        dashboardStats := (match o.statsR with | .ok d => d | _ => s.dashboardStats)
        alerts := (match o.alertsR with | .ok d => d | _ => s.alerts)
        monitoringSessions := (match o.sessionsR with | .ok d => d | _ => s.monitoringSessions)
        loading := false }

/-- The endpoints requested by one execution of `fetchData` that passes the
logged-in guard; the guard on line 138 issues nothing when logged out. -/
def pollPaths : List String :=
  ["/patients", "/dashboard", "/alerts", "/monitoring/sessions"]

/-- The poll fetches issued when `fetchData` is invoked on state `a`. -/
def fetchesIssued (a : AppState) : List String :=
  if a.isLoggedIn then pollPaths else []

/-- The whole client viewed by the poll timer: the component state plus
whether the 30-second interval of the `useEffect` on lines 165-171 is
currently armed. -/
structure SysState where
  app : AppState
  timerActive : Bool
deriving DecidableEq

/-- One firing of the poll timer: if the interval is armed, `fetchData` runs
(issuing its fetches and settling with outcomes `o`); afterwards the
`useEffect` with dependency `[isLoggedIn]` re-settles, so the interval is
armed exactly when `isLoggedIn` still holds (its cleanup clears the interval
when the flag flipped).  Returns the new system state and the poll fetches
issued by this firing. -/
def pollTick (s : SysState) (o : TickOutcomes) : SysState × List String :=
  if s.timerActive then
    let a := fetchData s.app o
    (⟨a, a.isLoggedIn⟩, fetchesIssued s.app)
  else (s, [])

/-- Run a sequence of timer firings, collecting every poll fetch issued. -/
def runTicks : SysState → List TickOutcomes → SysState × List String
  | s, [] => (s, [])
  | s, o :: os =>
    let p := pollTick s o
    let r := runTicks p.1 os
    (r.1, p.2 ++ r.2)

/-- The response body of POST /login. -/
structure LoginResponse where
  user : Option UserInfo
deriving DecidableEq

/-- The response body of POST /monitoring/start. -/
structure StartResponse where
  status : String
deriving DecidableEq

/-- `handleLogin` (App.js lines 55-78), up to but not including the refresh
poll: on a 2xx response carrying a `user`, the user is stored, `isLoggedIn`
is set true and the form cleared (the `fetchData()` call on line 70 is a
separate later `fetchData` step); on a 2xx response without a `user` nothing
changes; on a 401 `apiCall` has set `isLoggedIn` false and returned `null`;
on a rejected request the catch block only reports the failure.  `loading`
ends false (the finally block). -/
def handleLogin (a : AppState) (r : FetchOutcome LoginResponse) : AppState :=
  match r with
  | .ok resp =>
    match resp.user with
    | some u =>
      { a with user := u, isLoggedIn := true
               loginForm := { username := "", password := "" }, loading := false }
    | none => { a with loading := false }
  | .auth401 => { a with isLoggedIn := false, loading := false }
  | .err => { a with loading := false }

/-- `handleLogout` (App.js lines 81-114): when the POST /logout request does
not throw (a 2xx — and likewise a 401, since `apiCall` resolves `null` for
it, after flipping `isLoggedIn` false), the success path clears the user,
the flag, all four registries and the page; when it throws, the catch block
clears only the user and the flag, leaving every registry untouched.
`loggingOut` ends false (the finally block). -/
def handleLogout (a : AppState) (r : FetchOutcome Unit) : AppState :=
  match r with
  | .ok _ =>
    { a with user := { username := "", role := "" }
             isLoggedIn := false
             patients := []
             alerts := []
             monitoringSessions := []
             dashboardStats := initialStats
             currentPage := "monitor"
             loggingOut := false }
  | .auth401 =>
    { a with user := { username := "", role := "" }
             isLoggedIn := false
             patients := []
             alerts := []
             monitoringSessions := []
             dashboardStats := initialStats
             currentPage := "monitor"
             loggingOut := false }
  | .err =>
    { a with user := { username := "", role := "" }
             isLoggedIn := false
             loggingOut := false }

/-- `checkAuthStatus` (App.js lines 117-134), the mount-time probe of
GET /dashboard: a 2xx response sets `isLoggedIn` true (the `fetchData()`
call on line 124 is a separate later step); a 401 makes `apiCall` set the
flag false and resolve `null`, and the `else` branch sets it false again; a
rejected request lands in the catch block which sets it false. -/
def checkAuthStatus (a : AppState) (probe : FetchOutcome DashboardStats) : AppState :=
  match probe with
  | .ok _ => { a with isLoggedIn := true }
  | .auth401 => { a with isLoggedIn := false }
  | .err => { a with isLoggedIn := false }

/-- The state effect of the 401 branch of `apiCall` (App.js lines 40-43):
`setIsLoggedIn(false)` and nothing else. -/
def apiCall401Effect (a : AppState) : AppState :=
  { a with isLoggedIn := false }

/-- `startMonitoring` (App.js lines 189-204), up to but not including the
refresh poll: the POST /monitoring/start request is issued unconditionally
— the body performs no check of `monitoringSessions` — and the state is
unchanged except that a 401 outcome flips `isLoggedIn` false inside
`apiCall`.  On a 2xx response the `fetchData()` call on line 198 is a
separate later `fetchData` step.  Returns the new state and the endpoints
requested by the function body itself. -/
def startMonitoring (a : AppState) (patientId : Nat)
    (r : FetchOutcome StartResponse) : AppState × List String :=
  ((match r with
    | .ok _ => a
    | .auth401 => { a with isLoggedIn := false }
    | .err => a),
   ["/monitoring/start"])

/-- `stopMonitoring` (App.js lines 207-217), up to but not including the
refresh poll: the POST /monitoring/stop/\x7bsessionId\x7d request is issued
unconditionally — the body performs no check of the session status — and
the state is unchanged except that a 401 outcome flips `isLoggedIn` false
inside `apiCall`. -/
def stopMonitoring (a : AppState) (sessionId : Nat)
    (r : FetchOutcome Unit) : AppState × List String :=
  ((match r with
    | .ok _ => a
    | .auth401 => { a with isLoggedIn := false }
    | .err => a),
   ["/monitoring/stop/" ++ toString sessionId])

/-- The active-session lookup used by both `MonitoringPage` (App.js lines
512-514) and `PatientsPage` (lines 564-566):
`monitoringSessions.find(s => s.patient_id === patient.id && s.status ===
"active")`, i.e. `Array.prototype.find`, which returns the first matching
element in list order. -/
def activeSessionFor (sessions : List Session) (patientId : Nat) : Option Session :=
  sessions.find? (fun s => s.patient_id == patientId && s.status == "active")

/-- Modelled from the spec words of the amended claim C8: the first session
in list order whose patient id matches and whose status is active, or none. -/
def firstActiveInOrder : List Session → Nat → Option Session
  | [], _ => none
  | s :: rest, pid =>
    if s.patient_id = pid ∧ s.status = "active" then some s
    else firstActiveInOrder rest pid

/-- The all-fetches-401 tick, the forced-logout scenario of claim C9. -/
def allAuth401Tick : TickOutcomes :=
  { patientsR := .auth401, statsR := .auth401, alertsR := .auth401, sessionsR := .auth401 }

/-- Concrete patient used by the C2 scenario. -/
def c2Patient : Patient :=
  { id := 1, name := "Ann Lee", age := 30, gender := "F", room_number := "101"
    condition := "", emergency_contact := "" }

/-- Concrete alert used by the C2 scenario. -/
def c2Alert : Alert :=
  { id := 1, session_id := 10, severity := "high", message := "motion"
    timestamp := 5, acknowledged := false }

/-- Concrete session used by the C2 scenario. -/
def c2Session : Session := { id := 10, patient_id := 1, status := "active", start_time := 3 }

/-- Concrete stats payload used by the C2 scenario. -/
def c2Stats : DashboardStats :=
  { total_patients := 1, active_sessions := 1, total_users := 1
    unacknowledged_alerts := 1, system_status := "operational" }

/-- The C2 scenario tick: the alerts fetch returns 401, the other three
succeed. -/
def c2Tick401 : TickOutcomes :=
  { patientsR := .ok [c2Patient], statsR := .ok c2Stats
    alertsR := .auth401, sessionsR := .ok [c2Session] }

/-- An all-successful later tick for the C2 scenario. -/
def c2TickOk : TickOutcomes :=
  { patientsR := .ok [c2Patient], statsR := .ok c2Stats
    alertsR := .ok [c2Alert], sessionsR := .ok [c2Session] }

/-- The C2 scenario starting point: mount state, timer armed. -/
def c2Sys : SysState := { app := initialState, timerActive := true }

/-- Patient payload of the stale tick in the C3 scenario. -/
def c3pA : Patient :=
  { id := 1, name := "A", age := 30, gender := "F", room_number := "101"
    condition := "", emergency_contact := "" }

/-- Patient payload of the fresh tick in the C3 scenario. -/
def c3pB : Patient :=
  { id := 2, name := "B", age := 40, gender := "M", room_number := "102"
    condition := "", emergency_contact := "" }

/-- Tick N of the C3 scenario (issued first, resolves last). -/
def c3TickStale : TickOutcomes :=
  { patientsR := .ok [c3pA], statsR := .ok initialStats
    alertsR := .ok [], sessionsR := .ok [] }

/-- Tick N+1 of the C3 scenario (issued second, resolves first). -/
def c3TickFresh : TickOutcomes :=
  { patientsR := .ok [c3pB], statsR := .ok initialStats
    alertsR := .ok [], sessionsR := .ok [] }

/-- An active session of patient 1, for the C4 scenario. -/
def c4Active : Session := { id := 10, patient_id := 1, status := "active", start_time := 100 }

/-- A stopped session, for the C4 scenario. -/
def c4Stopped : Session := { id := 11, patient_id := 2, status := "stopped", start_time := 50 }

/-- The C4 scenario snapshot: patient 1 already shows an active session and
session 11 is not active. -/
def c4State : AppState :=
  { initialState with monitoringSessions := [c4Active, c4Stopped] }

/-- Concrete alert payload for the C5 scenario. -/
def c5Alert : Alert :=
  { id := 1, session_id := 10, severity := "moderate", message := "m"
    timestamp := 1, acknowledged := false }

/-- Concrete session payload for the C5 scenario. -/
def c5Session : Session := { id := 10, patient_id := 1, status := "active", start_time := 1 }

/-- The C5 scenario tick: the stats fetch rejects while the patients, alerts
and sessions fetches all succeed with non-empty payloads. -/
def c5Tick : TickOutcomes :=
  { patientsR := .ok [c3pA], statsR := .err
    alertsR := .ok [c5Alert], sessionsR := .ok [c5Session] }

/-- First active session of patient 1 in list order, with the later start. -/
def c8s1 : Session := { id := 1, patient_id := 1, status := "active", start_time := 10 }

/-- Second active session of patient 1 in list order, with the earliest
start. -/
def c8s2 : Session := { id := 2, patient_id := 1, status := "active", start_time := 5 }

lemma join_filter_eq (patient : Patient) (sessions : List Session)
    (alerts : List Alert) :
    alerts.filter (fun alert =>
      sessions.any (fun session =>
        session.patient_id == patient.id && session.id == alert.session_id))
    = alerts.filter (fun a =>
        decide (∃ s ∈ sessions, s.patient_id = patient.id ∧ s.id = a.session_id)) := by
  apply List.filter_congr
  intro a _
  rw [Bool.eq_iff_iff]
  simp [List.any_eq_true]

lemma status_cascade_eq (l : List Alert) :
    (if l.any (fun alert => alert.severity == "critical") then "Critical"
     else if l.any (fun alert => alert.severity == "high") then "High"
     else if l.length > 0 then "Moderate" else "Stable")
    = (if ∃ a ∈ l, a.severity = "critical" then "Critical"
       else if ∃ a ∈ l, a.severity = "high" then "High"
       else if l ≠ [] then "Moderate" else "Stable") := by
  have h1 : (l.any (fun alert => alert.severity == "critical") = true)
      ↔ ∃ a ∈ l, a.severity = "critical" := by simp [List.any_eq_true]
  have h2 : (l.any (fun alert => alert.severity == "high") = true)
      ↔ ∃ a ∈ l, a.severity = "high" := by simp [List.any_eq_true]
  have h3 : (l.length > 0) ↔ l ≠ [] := List.length_pos
  simp only [h1, h2, h3]

/-- Claim C1: for every patient and snapshot, `getPatientStatus` collects
exactly the alerts whose session id matches a session of that patient
(independent of the session status), and returns Critical if any collected
alert is critical, else High if any is high, else Moderate if the collected
set is non-empty, else Stable — that is, it agrees with the spec-worded
`resolveStatus` on every input. -/
theorem C1_status_resolution (patient : Patient) (sessions : List Session)
    (alerts : List Alert) :
    getPatientStatus alerts sessions patient = resolveStatus patient sessions alerts := by
  simp only [getPatientStatus, resolveStatus]
  rw [join_filter_eq]
  exact status_cascade_eq _

/-- Claim C6 counterexample: the `isLoggedIn` state is initialized with
`useState(true)` (App.js line 19), so at startup the flag is true, not the
claimed false. -/
theorem C6_counterexample :
    initialState.isLoggedIn = true ∧ initialState.isLoggedIn ≠ false := by
  exact ⟨rfl, by decide⟩

/-- Claim C6 amended: the authenticated flag is initialized to true at
startup; the mount-time probe of /dashboard then sets it true exactly when
the probe succeeds (false on a 401 or a rejected request), and a successful
credential exchange also sets it true. -/
theorem C6_amended_auth_initialization (a : AppState) (d : DashboardStats)
    (u : UserInfo) :
    initialState.isLoggedIn = true ∧
    (checkAuthStatus a (.ok d)).isLoggedIn = true ∧
    (checkAuthStatus a .auth401).isLoggedIn = false ∧
    (checkAuthStatus a .err).isLoggedIn = false ∧
    (handleLogin a (.ok ⟨some u⟩)).isLoggedIn = true :=
  ⟨rfl, rfl, rfl, rfl, rfl⟩

/-- Claim C7: `startMonitoring` does not speculatively mutate the session
registry: whatever the outcome of the start request, the state it leaves
(before the separate refresh poll commits) has exactly the prior cached
sessions, so the active-session read for that patient is unchanged. -/
theorem C7_no_speculative_mutation (a : AppState) (patientId : Nat)
    (r : FetchOutcome StartResponse) :
    (startMonitoring a patientId r).1.monitoringSessions = a.monitoringSessions ∧
    activeSessionFor (startMonitoring a patientId r).1.monitoringSessions patientId
      = activeSessionFor a.monitoringSessions patientId := by
  cases r <;> exact ⟨rfl, rfl⟩

/-- Claim C10: when the logout request throws, the catch block still clears
the user and the authenticated flag but leaves all four registries at their
previous contents; the success path is the one that empties them. -/
theorem C10_logout_failure_frame (a : AppState) :
    (handleLogout a .err).user = { username := "", role := "" } ∧
    (handleLogout a .err).isLoggedIn = false ∧
    (handleLogout a .err).patients = a.patients ∧
    (handleLogout a .err).alerts = a.alerts ∧
    (handleLogout a .err).monitoringSessions = a.monitoringSessions ∧
    (handleLogout a .err).dashboardStats = a.dashboardStats ∧
    (handleLogout a (.ok ())).user = { username := "", role := "" } ∧
    (handleLogout a (.ok ())).isLoggedIn = false ∧
    (handleLogout a (.ok ())).patients = [] ∧
    (handleLogout a (.ok ())).alerts = [] ∧
    (handleLogout a (.ok ())).monitoringSessions = [] ∧
    (handleLogout a (.ok ())).dashboardStats = initialStats :=
  ⟨rfl, rfl, rfl, rfl, rfl, rfl, rfl, rfl, rfl, rfl, rfl, rfl⟩


lemma fetchData_loggedOut (a : AppState) (o : TickOutcomes)
    (h : a.isLoggedIn = false) : fetchData a o = a := by
  simp [fetchData, h]

lemma fetchData_isLoggedIn_of_auth401 (a : AppState) (o : TickOutcomes)
    (h : anyAuth401 o = true) : (fetchData a o).isLoggedIn = false := by
  unfold fetchData
  by_cases hl : a.isLoggedIn
  · by_cases he : anyErr o <;> simp [hl, h, he]
  · simp_all

lemma fetchData_isLoggedIn_of_no401 (a : AppState) (o : TickOutcomes)
    (h : anyAuth401 o = false) : (fetchData a o).isLoggedIn = a.isLoggedIn := by
  unfold fetchData
  by_cases hl : a.isLoggedIn
  · by_cases he : anyErr o <;> simp [hl, h, he]
  · simp_all

lemma fetchData_patients_ok (a : AppState) (o : TickOutcomes) (d : List Patient)
    (hl : a.isLoggedIn = true) (he : anyErr o = false) (hp : o.patientsR = .ok d) :
    (fetchData a o).patients = d := by
  unfold fetchData
  by_cases h4 : anyAuth401 o <;> simp [hl, he, h4, hp]

lemma runTicks_no_fetches (os : List TickOutcomes) (s : SysState)
    (h : s.app.isLoggedIn = false) : (runTicks s os).2 = [] := by
  induction os generalizing s with
  | nil => rfl
  | cons o os ih =>
    show (pollTick s o).2 ++ (runTicks (pollTick s o).1 os).2 = []
    by_cases ht : s.timerActive
    · have hfd : fetchData s.app o = s.app := fetchData_loggedOut s.app o h
      have hp : pollTick s o = (⟨s.app, false⟩, []) := by
        simp [pollTick, ht, hfd, fetchesIssued, h]
      rw [hp]
      simpa using ih ⟨s.app, false⟩ h
    · have hp : pollTick s o = (s, []) := by simp [pollTick, ht]
      rw [hp]
      simpa using ih s h

/-- Claim C2: once any of the four concurrent poll fetches of a tick returns
401 — in particular when exactly one returns 401 while the other three
succeed — the authenticated flag flips to false, the recurring poll timer is
stopped, and no further poll fetch is issued over any sequence of later
timer firings (until a new successful login re-arms it). -/
theorem C2_auth_loss_halts_polling (s : SysState) (o : TickOutcomes)
    (hArm : s.timerActive = true) (h401 : anyAuth401 o = true) :
    (pollTick s o).1.app.isLoggedIn = false ∧
    (pollTick s o).1.timerActive = false ∧
    ∀ os : List TickOutcomes, (runTicks (pollTick s o).1 os).2 = [] := by
  have hflag : (fetchData s.app o).isLoggedIn = false :=
    fetchData_isLoggedIn_of_auth401 s.app o h401
  have hp : (pollTick s o).1 = ⟨fetchData s.app o, (fetchData s.app o).isLoggedIn⟩ := by
    simp [pollTick, hArm]
  refine ⟨?_, ?_, ?_⟩
  · rw [hp]; exact hflag
  · rw [hp]; exact hflag
  · intro os
    exact runTicks_no_fetches os (pollTick s o).1 (by rw [hp]; exact hflag)

/-- Witness for claim C2 at the concrete scenario of the spec: the alerts
fetch returns 401 while patients, stats and sessions succeed in the same
tick; the flag flips false, the timer stops, and a following all-successful
tick issues no fetch. -/
theorem C2_witness :
    (pollTick c2Sys c2Tick401).1.app.isLoggedIn = false ∧
    (pollTick c2Sys c2Tick401).1.timerActive = false ∧
    (runTicks (pollTick c2Sys c2Tick401).1 [c2TickOk]).2 = [] := by
  have h := C2_auth_loss_halts_polling c2Sys c2Tick401 (by decide) (by decide)
  exact ⟨h.1, h.2.1, h.2.2 [c2TickOk]⟩

/-- Claim C3 counterexample: with tick N carrying patients [c3pA] and tick
N+1 carrying patients [c3pB], tick N+1 resolves first and commits [c3pB];
the stale tick N then resolves and its commit replaces the registry with
[c3pA] — the later tick's committed contents do not survive. -/
theorem C3_counterexample :
    (fetchData initialState c3TickFresh).patients = [c3pB] ∧
    (fetchData (fetchData initialState c3TickFresh) c3TickStale).patients = [c3pA] ∧
    c3pA ≠ c3pB := by
  refine ⟨by decide, by decide, by decide⟩

/-- Claim C3 amended: `fetchData` carries no tick sequence number, so a
commit depends only on the state at resolution time and the resolved data —
the last completion to resolve wins.  If a fresh tick (with no 401) commits
first and a stale tick with a successful patients fetch resolves afterwards,
the stale data replaces the fresh registry contents. -/
theorem C3_amended_last_completion_wins (a : AppState) (oStale oFresh : TickOutcomes)
    (d : List Patient) (hl : a.isLoggedIn = true)
    (h401 : anyAuth401 oFresh = false) (he : anyErr oStale = false)
    (hp : oStale.patientsR = .ok d) :
    (fetchData (fetchData a oFresh) oStale).patients = d := by
  apply fetchData_patients_ok
  · rw [fetchData_isLoggedIn_of_no401 _ _ h401]; exact hl
  · exact he
  · exact hp

/-- Witness for the amended claim C3 at concrete data: the stale tick,
resolving after the fresh one, leaves the patients registry at its own
payload [c3pA]. -/
theorem C3_amended_witness :
    (fetchData (fetchData initialState c3TickFresh) c3TickStale).patients = [c3pA] :=
  C3_amended_last_completion_wins initialState c3TickStale c3TickFresh [c3pA]
    rfl (by decide) (by decide) rfl

/-- Claim C4 counterexample: the last synced snapshot `c4State` shows an
active session for patient 1, yet `startMonitoring` for patient 1 still
issues its network request (the claim requires no round-trip); likewise the
snapshot shows session 11 as stopped, yet `stopMonitoring 11` still issues
its request. -/
theorem C4_counterexample :
    (activeSessionFor c4State.monitoringSessions 1).isSome = true ∧
    (startMonitoring c4State 1 (.ok ⟨"started"⟩)).2 ≠ [] ∧
    c4Stopped.status ≠ "active" ∧ c4Stopped ∈ c4State.monitoringSessions ∧
    (stopMonitoring c4State 11 (.ok ())).2 ≠ [] := by
  refine ⟨by decide, by decide, by decide, by decide, by decide⟩

/-- Claim C4 amended: neither `startMonitoring` nor `stopMonitoring`
performs any local precondition check — whatever the registry snapshot and
whatever the outcome, the network request is issued unconditionally (the
only guard in the program is which button the pages render). -/
theorem C4_amended_no_local_guard (a : AppState) (patientId sessionId : Nat)
    (r1 : FetchOutcome StartResponse) (r2 : FetchOutcome Unit) :
    (startMonitoring a patientId r1).2 = ["/monitoring/start"] ∧
    (stopMonitoring a sessionId r2).2 = ["/monitoring/stop/" ++ toString sessionId] :=
  ⟨rfl, rfl⟩

/-- Claim C5 counterexample: in a tick where the stats fetch rejects while
the patients, alerts and sessions fetches succeed, `Promise.all` rejects and
none of the registries is updated — the registries whose fetches succeeded
keep their prior (empty) snapshots instead of the fetched data. -/
theorem C5_counterexample :
    c5Tick.patientsR = .ok [c3pA] ∧ c5Tick.alertsR = .ok [c5Alert] ∧
    c5Tick.sessionsR = .ok [c5Session] ∧ c5Tick.statsR = .err ∧
    (fetchData initialState c5Tick).patients = [] ∧
    ([] : List Patient) ≠ [c3pA] ∧
    (fetchData initialState c5Tick).alerts = [] ∧
    ([] : List Alert) ≠ [c5Alert] ∧
    (fetchData initialState c5Tick).monitoringSessions = [] ∧
    ([] : List Session) ≠ [c5Session] := by
  refine ⟨by decide, by decide, by decide, by decide, by decide, by decide,
    by decide, by decide, by decide, by decide⟩

/-- Claim C5 amended: the independence holds only for 401 outcomes — a fetch
that resolves null leaves just its own registry unchanged while the others
commit; but a rejected fetch (network failure or non-401 HTTP error) makes
`Promise.all` reject, and then no registry at all is updated that tick. -/
theorem C5_amended_partial_failure (a : AppState) (o : TickOutcomes)
    (hl : a.isLoggedIn = true) :
    (anyErr o = true →
      (fetchData a o).patients = a.patients ∧
      (fetchData a o).dashboardStats = a.dashboardStats ∧
      (fetchData a o).alerts = a.alerts ∧
      (fetchData a o).monitoringSessions = a.monitoringSessions) ∧
    (anyErr o = false →
      (fetchData a o).patients
        = (match o.patientsR with | .ok d => d | _ => a.patients) ∧
      (fetchData a o).dashboardStats
        = (match o.statsR with | .ok d => d | _ => a.dashboardStats) ∧
      (fetchData a o).alerts
        = (match o.alertsR with | .ok d => d | _ => a.alerts) ∧
      (fetchData a o).monitoringSessions
        = (match o.sessionsR with | .ok d => d | _ => a.monitoringSessions)) := by
  unfold fetchData
  constructor <;> intro he <;> by_cases h4 : anyAuth401 o <;> simp [hl, he, h4]

/-- Witness for the amended claim C5: with the stats fetch rejected and the
other three successful, every registry keeps its prior snapshot. -/
theorem C5_amended_witness :
    (fetchData initialState c5Tick).patients = initialState.patients ∧
    (fetchData initialState c5Tick).dashboardStats = initialState.dashboardStats ∧
    (fetchData initialState c5Tick).alerts = initialState.alerts ∧
    (fetchData initialState c5Tick).monitoringSessions = initialState.monitoringSessions :=
  (C5_amended_partial_failure initialState c5Tick rfl).1 (by decide)

/-- Claim C8 counterexample: the snapshot holds two sessions of patient 1
both at status active, the first in list order starting at time 10 and the
second at time 5; the lookup returns the first in list order (start 10),
not the session with the earliest start timestamp (start 5). -/
theorem C8_counterexample :
    activeSessionFor [c8s1, c8s2] 1 = some c8s1 ∧
    c8s2.patient_id = 1 ∧ c8s2.status = "active" ∧
    c8s2.start_time < c8s1.start_time := by
  refine ⟨by decide, by decide, by decide, by decide⟩

/-- Claim C8 amended: when several sessions of the same patient show status
active, the lookup is deterministic but selects the first matching session
in list order (Array.prototype.find), not the one with the earliest start
timestamp. -/
theorem C8_amended_first_in_list_order (sessions : List Session) (pid : Nat) :
    activeSessionFor sessions pid = firstActiveInOrder sessions pid := by
  induction sessions with
  | nil => rfl
  | cons s rest ih =>
    have hb : (s.patient_id == pid && s.status == "active")
        = decide (s.patient_id = pid ∧ s.status = "active") := by
      by_cases h1 : s.patient_id = pid <;> by_cases h2 : s.status = "active" <;>
        simp [h1, h2]
    by_cases h : s.patient_id = pid ∧ s.status = "active"
    · rw [activeSessionFor, List.find?_cons_of_pos _ (by rw [hb]; simpa using h),
        firstActiveInOrder, if_pos h]
    · rw [activeSessionFor, List.find?_cons_of_neg _ (by rw [hb]; simpa using h),
        firstActiveInOrder, if_neg h]
      exact ih

lemma fetchData_all401 (a : AppState) :
    (fetchData a allAuth401Tick).patients = a.patients ∧
    (fetchData a allAuth401Tick).alerts = a.alerts ∧
    (fetchData a allAuth401Tick).monitoringSessions = a.monitoringSessions ∧
    (fetchData a allAuth401Tick).dashboardStats = a.dashboardStats := by
  unfold fetchData
  by_cases hl : a.isLoggedIn <;>
    simp [hl, anyAuth401, anyErr, allAuth401Tick, FetchOutcome.is401,
      FetchOutcome.isErr]

/-- Claim C9: the 401 branch of `apiCall` flips only the authenticated flag
and leaves every registry (and the user) untouched; a tick all of whose
fetches return 401 likewise leaves all four registries at their prior
snapshots; the registries are emptied by the logout success path, and no
login, start or stop step ever changes them. -/
theorem C9_auth_expiry_frame (a : AppState) :
    (apiCall401Effect a).isLoggedIn = false ∧
    (apiCall401Effect a).patients = a.patients ∧
    (apiCall401Effect a).alerts = a.alerts ∧
    (apiCall401Effect a).monitoringSessions = a.monitoringSessions ∧
    (apiCall401Effect a).dashboardStats = a.dashboardStats ∧
    (apiCall401Effect a).user = a.user ∧
    (fetchData a allAuth401Tick).patients = a.patients ∧
    (fetchData a allAuth401Tick).alerts = a.alerts ∧
    (fetchData a allAuth401Tick).monitoringSessions = a.monitoringSessions ∧
    (fetchData a allAuth401Tick).dashboardStats = a.dashboardStats ∧
    (handleLogout a (.ok ())).patients = [] ∧
    (handleLogout a (.ok ())).alerts = [] ∧
    (handleLogout a (.ok ())).monitoringSessions = [] ∧
    (handleLogout a (.ok ())).dashboardStats = initialStats ∧
    (∀ r : FetchOutcome LoginResponse,
      (handleLogin a r).patients = a.patients ∧
      (handleLogin a r).alerts = a.alerts ∧
      (handleLogin a r).monitoringSessions = a.monitoringSessions ∧
      (handleLogin a r).dashboardStats = a.dashboardStats) ∧
    (∀ (p : Nat) (r : FetchOutcome StartResponse),
      (startMonitoring a p r).1.patients = a.patients ∧
      (startMonitoring a p r).1.alerts = a.alerts ∧
      (startMonitoring a p r).1.monitoringSessions = a.monitoringSessions ∧
      (startMonitoring a p r).1.dashboardStats = a.dashboardStats) := by
  refine ⟨rfl, rfl, rfl, rfl, rfl, rfl, (fetchData_all401 a).1,
    (fetchData_all401 a).2.1, (fetchData_all401 a).2.2.1,
    (fetchData_all401 a).2.2.2, rfl, rfl, rfl, rfl, ?_, ?_⟩
  · intro r
    cases r with
    | ok resp => cases hu : resp.user <;> simp [handleLogin, hu]
    | auth401 => exact ⟨rfl, rfl, rfl, rfl⟩
    | err => exact ⟨rfl, rfl, rfl, rfl⟩
  · intro p r
    cases r <;> exact ⟨rfl, rfl, rfl, rfl⟩

end VitalWatch
